import Mathlib

/-
Shallow embedding of the FloWork front end (workflow list / builder /
executor screens).  The definitions below are translated from the
TypeScript/JSX source:

  - frontend/components/WorkflowExecutor.tsx  (handleExecute, result rendering)
  - frontend/components/WorkflowBuilder.tsx   (addNode, updateNode, removeNode, handleSave)
  - the workflow list component                (handleDelete, loadWorkflows)

JavaScript strings that may be absent (undefined) are modelled as
Option String; the JS truthiness test used by the code (absent and the
empty string are both falsy) is modelled by truthyS and jsOrS below.
Network calls are modelled by passing the response, an
Except TransportError value, as an explicit argument to the handler.
-/

namespace FloWork

/-- Models the JS idiom `a || b` for a string-or-undefined value a:
the fallback b is used when a is absent or the empty string. -/
def jsOrS : Option String → String → String
  | some s, d => if s = "" then d else s
  | none, d => d

/-- JS truthiness of a string-or-undefined value: true exactly when the
value is present and not the empty string. -/
def truthyS : Option String → Bool
  | some s => s != ""
  | none => false

/-- Models JS String.prototype.trim: strips whitespace from both ends.
Written by structural recursion over the character list so that it
evaluates by kernel reduction (Lean String.trim is defined through
Substring loops that do not reduce definitionally). -/
def jsTrim (s : String) : String :=
  String.mk (((s.data.dropWhile Char.isWhitespace).reverse.dropWhile
    Char.isWhitespace).reverse)

/-- A transport error as observed in a catch block: the optional
server-provided message found at err.response.data.error, and the
optional own message err.message. -/
structure TransportError where
  responseError : Option String
  message : Option String
deriving DecidableEq

/-- The final_state record of an execute response; the client only reads
last_response_content from it. -/
structure FinalState where
  last_response_content : Option String
deriving DecidableEq

/-- The summary record of an execute response. -/
structure Summary where
  nodes_executed : Int
  has_error : Bool
deriving DecidableEq

/-- An execute response (or the synthetic error record built in the
catch branch); every field may be absent in the raw JSON. -/
structure ExecutionResult where
  error : Option String
  final_state : Option FinalState
  execution_log : Option (List String)
  summary : Option Summary
deriving DecidableEq

/-- The synthetic result stored when the execute request fails:
`setResult(\x7b error: err.response?.data?.error || err.message || "Execution failed" \x7d)`. -/
def failureResult (e : TransportError) : ExecutionResult :=
  { error := some (jsOrS e.responseError (jsOrS e.message "Execution failed")),
    final_state := none,
    execution_log := none,
    summary := none }

/-- The result stored once the execute call completes: the raw response
on success, the synthetic error record on failure. -/
def execFinalResult : Except TransportError ExecutionResult → ExecutionResult
  | .ok data => data
  | .error e => failureResult e

/-- The summary panel as rendered: nodes_executed verbatim and the
two-valued status label. -/
structure SummaryView where
  nodesExecuted : Int
  statusLabel : String
deriving DecidableEq

/-- What the Results section of WorkflowExecutor renders for a stored
result: each field is some content exactly when that panel appears. -/
structure RenderedView where
  errorPanel : Option String
  finalOutput : Option String
  executionLog : Option (List String)
  summary : Option SummaryView
deriving DecidableEq

/-- Rendering of a stored result, from the JSX of WorkflowExecutor:
`result.error ?` selects the error panel (a truthiness test); otherwise
the Final Output panel always shows
`result.final_state?.last_response_content || "No output"`, the
Execution Log panel appears when `result.execution_log &&
result.execution_log.length > 0`, and the Summary panel appears when
`result.summary` is present, with status "Failed" when has_error else
"Success". -/
def renderResult (r : ExecutionResult) : RenderedView :=
  if truthyS r.error then
    { errorPanel := r.error, finalOutput := none, executionLog := none, summary := none }
  else
    { errorPanel := none,
      finalOutput := some (jsOrS (r.final_state.bind FinalState.last_response_content) "No output"),
      executionLog :=
        match r.execution_log with
        | some l => if l.length > 0 then some l else none
        | none => none,
      summary := r.summary.map (fun sm =>
        { nodesExecuted := sm.nodes_executed,
          statusLabel := if sm.has_error then "Failed" else "Success" }) }

/-- Metadata row of the workflow list, per the WorkflowMetadata
interface of the list component. -/
structure WorkflowMetadata where
  id : String
  name : String
  description : Option String
  created_at : String
  updated_at : String
  node_count : Nat
deriving DecidableEq

/-- State of the WorkflowExecutor component: the dropdown data, the
selected workflow id, the input text, the executing flag and the stored
result. -/
structure ExecutorState where
  workflows : List WorkflowMetadata
  selectedId : String
  input : String
  executing : Bool
  result : Option ExecutionResult
deriving DecidableEq

/-- setSelectedId, as wired to the dropdown onChange. -/
def setSelectedId (s : ExecutorState) (v : String) : ExecutorState :=
  { s with selectedId := v }

/-- setInput, as wired to the textarea onChange. -/
def setInput (s : ExecutorState) (v : String) : ExecutorState :=
  { s with input := v }

/-- loadWorkflows of WorkflowExecutor: stores the list on success; a
failure is only logged to the console, so the state is unchanged. -/
def loadWorkflowsExec (s : ExecutorState)
    (resp : Except TransportError (List WorkflowMetadata)) : ExecutorState :=
  match resp with
  | .ok data => { s with workflows := data }
  | .error _ => s

/-- Outcome of one handleExecute invocation: the successive component
states it writes (starting with the state it was invoked in), whether
the execute request was issued, and the alert message if any. -/
structure ExecOutcome where
  states : List ExecutorState
  networkCalled : Bool
  alertMessage : Option String
deriving DecidableEq

/-- The component state after handleExecute finishes. -/
def ExecOutcome.finalState (o : ExecOutcome) : Option ExecutorState :=
  o.states.getLast?

/-- handleExecute of WorkflowExecutor.  Validation:
`if (!selectedId || !input.trim())` alerts and returns before any
network call.  Otherwise the writes happen in source order:
setExecuting(true); setResult(null); await execute; setResult(data or
the synthetic error record); finally setExecuting(false). -/
def handleExecute (s : ExecutorState)
    (resp : Except TransportError ExecutionResult) : ExecOutcome :=
  if s.selectedId = "" ∨ jsTrim s.input = "" then
    { states := [s],
      networkCalled := false,
      alertMessage := some "Please select a workflow and provide input" }
  else
    let fr := execFinalResult resp
    { states := [s,
        { s with executing := true },
        { s with executing := true, result := none },
        { s with executing := true, result := some fr },
        { s with executing := false, result := some fr }],
      networkCalled := true,
      alertMessage := none }

/-- A conditional-routing entry; the builder UI treats these as opaque
values, so the embedding gives them a single raw payload. -/
structure ConditionalTarget where
  raw : String
deriving DecidableEq

/-- The routing_rules record of a node. -/
structure RoutingRules where
  default_target : String
  conditional_targets : List ConditionalTarget
deriving DecidableEq

/-- A workflow node as a JS object: each field may be missing
(undefined).  Nodes built by addNode carry all three fields; updateNode
applied at an out-of-range index can create objects with fewer fields,
which is why the embedding keeps every field optional. -/
structure NodeObject where
  name : Option String
  prompt : Option String
  routing_rules : Option RoutingRules
deriving DecidableEq

/-- The JS value undefined viewed as a node object with no fields:
spreading it into an object literal contributes nothing. -/
def emptyNodeObject : NodeObject :=
  { name := none, prompt := none, routing_rules := none }

/-- The node built by addNode when the draft currently has count
nodes. -/
def newNode (count : Nat) : NodeObject :=
  { name := some ("Node " ++ toString (count + 1)),
    prompt := some "",
    routing_rules := some { default_target := "END", conditional_targets := [] } }

/-- addNode of WorkflowBuilder: `setNodes([...nodes, newNode])`. -/
def addNode (nodes : List NodeObject) : List NodeObject :=
  nodes ++ [newNode nodes.length]

/-- n successive addNode calls starting from the empty draft. -/
def addNodeIter : Nat → List NodeObject
  | 0 => []
  | n + 1 => addNode (addNodeIter n)

/-- The field argument of updateNode (keyof Node). -/
inductive NodeField where
  | name
  | prompt
  | routing_rules
deriving DecidableEq

/-- The type of the value assigned to each node field. -/
abbrev NodeField.Val : NodeField → Type
  | .name => String
  | .prompt => String
  | .routing_rules => RoutingRules

/-- The object literal `\x7b ...p, [f]: v \x7d`: field f set to v, the other
fields taken from p. -/
def setField (p : NodeObject) : (f : NodeField) → f.Val → NodeObject
  | .name, v => { p with name := some v }
  | .prompt, v => { p with prompt := some v }
  | .routing_rules, v => { p with routing_rules := some v }

/-- Reads one field of a node object. -/
def getField (p : NodeObject) : (f : NodeField) → Option f.Val
  | .name => p.name
  | .prompt => p.prompt
  | .routing_rules => p.routing_rules

/-- JS array index assignment `arr[i] = x` on a copied array: in range
it replaces position i; at i = length it appends; beyond the end the
skipped positions become holes, read back as undefined, which this
embedding represents as field-less node objects. -/
def setAt (l : List NodeObject) (i : Nat) (x : NodeObject) : List NodeObject :=
  if i < l.length then l.set i x
  else l ++ List.replicate (i - l.length) emptyNodeObject ++ [x]

/-- updateNode of WorkflowBuilder:
`const updated = [...nodes]; updated[index] = \x7b ...updated[index],
[field]: value \x7d; setNodes(updated)`.  The read updated[index] yields
undefined (here: the empty node object) when index is out of range. -/
def updateNode (nodes : List NodeObject) (index : Nat) (f : NodeField)
    (v : f.Val) : List NodeObject :=
  setAt nodes index (setField (nodes.getD index emptyNodeObject) f v)

/-- removeNode of WorkflowBuilder:
`setNodes(nodes.filter((_, i) => i !== index))`. -/
def removeNode (nodes : List NodeObject) (index : Nat) : List NodeObject :=
  (nodes.enum.filter (fun p => p.1 != index)).map Prod.snd

/-- The workflow payload sent by handleSave. -/
structure Workflow where
  name : String
  description : String
  nodes : List NodeObject
deriving DecidableEq

/-- The draft held by WorkflowBuilder. -/
structure BuilderState where
  name : String
  description : String
  nodes : List NodeObject
deriving DecidableEq

/-- The step handleSave takes: a blocking validation alert, or a
create/update request carrying the draft payload. -/
inductive SaveStep where
  | validation (message : String)
  | request (payload : Workflow)
deriving DecidableEq

/-- handleSave of WorkflowBuilder: `if (!name.trim())` alerts
"Workflow name is required" and returns before any network call;
otherwise it issues create or update with the draft payload.  The
returned state is the draft after the call (handleSave never edits the
draft fields). -/
def handleSave (s : BuilderState) : BuilderState × SaveStep :=
  if jsTrim s.name = "" then
    (s, .validation "Workflow name is required")
  else
    (s, .request { name := s.name, description := s.description, nodes := s.nodes })

/-- State of the workflow list component. -/
structure ListState where
  workflows : List WorkflowMetadata
  loading : Bool
  error : Option String
deriving DecidableEq

/-- loadWorkflows of the list component: on success stores the list and
clears the error; on failure keeps the current list and stores
err.message or the fallback text; loading is reset in finally. -/
def loadWorkflowsList (s : ListState)
    (resp : Except TransportError (List WorkflowMetadata)) : ListState :=
  match resp with
  | .ok data => { workflows := data, loading := false, error := none }
  | .error e =>
    { workflows := s.workflows, loading := false,
      error := some (jsOrS e.message "Failed to load workflows") }

/-- Outcome of one handleDelete invocation. -/
structure DeleteOutcome where
  state : ListState
  deleteCalled : Bool
  reloadCalled : Bool
  alertMessage : Option String
deriving DecidableEq

/-- handleDelete of the list component: `if (!confirm(...)) return;`
then await the delete request; on success reload the full list through
loadWorkflows; on failure alert err.message or the fallback text and
leave the state untouched. -/
def handleDelete (s : ListState) (confirmed : Bool)
    (dresp : Except TransportError Unit)
    (rresp : Except TransportError (List WorkflowMetadata)) : DeleteOutcome :=
  if confirmed then
    match dresp with
    | .ok _ =>
      { state := loadWorkflowsList s rresp, deleteCalled := true,
        reloadCalled := true, alertMessage := none }
    | .error e =>
      { state := s, deleteCalled := true, reloadCalled := false,
        alertMessage := some (jsOrS e.message "Failed to delete workflow") }
  else
    { state := s, deleteCalled := false, reloadCalled := false,
      alertMessage := none }

/-- Sample execution results and states used by the concrete
counterexample and witness theorems below. -/
def sampleHeldResult : ExecutionResult :=
  { error := none, final_state := none, execution_log := none, summary := none }

/-- A sample successful execute response. -/
def sampleNewResult : ExecutionResult :=
  { error := none, final_state := some { last_response_content := some "done" },
    execution_log := none, summary := none }

/-- A sample executor state that already holds a result. -/
def sampleExecutorState : ExecutorState :=
  { workflows := [], selectedId := "w1", input := "hello",
    executing := false, result := some sampleHeldResult }

/-- A sample workflow-list row. -/
def sampleMeta : WorkflowMetadata :=
  { id := "1", name := "w", description := none, created_at := "2024-01-01",
    updated_at := "2024-01-02", node_count := 1 }

end FloWork

namespace FloWork

/-- A falsy string-or-undefined value makes the JS or-chain fall
through to its right operand. -/
theorem jsOrS_falsy (a : Option String) (d : String) (h : truthyS a = false) :
    jsOrS a d = d := by
  cases a with
  | none => rfl
  | some s =>
    have : s = "" := by
      by_contra hs
      simp [truthyS, hs] at h
    simp [jsOrS, this]

/-- A truthy string short-circuits the JS or-chain. -/
theorem jsOrS_truthy (s : String) (d : String) (h : s ≠ "") :
    jsOrS (some s) d = s := by
  simp [jsOrS, h]

/-- Claim C1: when an execute request fails, the stored result is the
synthetic record with error message chosen in priority order: the
server-provided message when it carries one (present and non-empty),
else the transport error message when it carries one, else the literal
"Execution failed"; in particular an error carrying no message at all
stores exactly the record with error "Execution failed". -/
theorem C1_execute_failure_message (s : ExecutorState) (e : TransportError)
    (hid : s.selectedId ≠ "") (hin : jsTrim s.input ≠ "") :
    (∀ r, e.responseError = some r → r ≠ "" →
      (handleExecute s (.error e)).finalState =
        some { s with
                executing := false,
                result := some { error := some r, final_state := none,
                                 execution_log := none, summary := none } }) ∧
    (truthyS e.responseError = false → ∀ m, e.message = some m → m ≠ "" →
      (handleExecute s (.error e)).finalState =
        some { s with
                executing := false,
                result := some { error := some m, final_state := none,
                                 execution_log := none, summary := none } }) ∧
    (truthyS e.responseError = false → truthyS e.message = false →
      (handleExecute s (.error e)).finalState =
        some { s with
                executing := false,
                result := some { error := some "Execution failed", final_state := none,
                                 execution_log := none, summary := none } }) := by
  have hcond : ¬(s.selectedId = "" ∨ jsTrim s.input = "") := by
    intro h; rcases h with h | h
    · exact hid h
    · exact hin h
  refine ⟨?_, ?_, ?_⟩
  · intro r hr hne
    have hmsg : jsOrS e.responseError (jsOrS e.message "Execution failed") = r := by
      rw [hr, jsOrS_truthy r _ hne]
    simp [handleExecute, hcond, ExecOutcome.finalState, execFinalResult,
      failureResult, hmsg]
  · intro htr m hm hne
    have hmsg : jsOrS e.responseError (jsOrS e.message "Execution failed") = m := by
      rw [jsOrS_falsy _ _ htr, hm, jsOrS_truthy m _ hne]
    simp [handleExecute, hcond, ExecOutcome.finalState, execFinalResult,
      failureResult, hmsg]
  · intro htr htm
    have hmsg : jsOrS e.responseError (jsOrS e.message "Execution failed")
        = "Execution failed" := by
      rw [jsOrS_falsy _ _ htr, jsOrS_falsy _ _ htm]
    simp [handleExecute, hcond, ExecOutcome.finalState, execFinalResult,
      failureResult, hmsg]

/-- Witness for C1 at a concrete state and a transport error with no
message of either kind: the stored result is the error record with the
fallback literal. -/
theorem C1_execute_failure_message_witness :
    (handleExecute
      { workflows := [], selectedId := "w1", input := "hello",
        executing := false, result := none }
      (.error { responseError := none, message := none })).finalState =
    some { workflows := [], selectedId := "w1", input := "hello",
           executing := false,
           result := some { error := some "Execution failed", final_state := none,
                            execution_log := none, summary := none } } :=
  (C1_execute_failure_message
    { workflows := [], selectedId := "w1", input := "hello",
      executing := false, result := none }
    { responseError := none, message := none }
    (by decide) (by decide)).2.2 (by decide) (by decide)

/-- Claim C2 as stated is false: a stored result whose error field is
present but holds the empty string (a falsy value for the JS test
`result.error ?`) is rendered down the success branch, with the Final
Output panel shown and no error panel. -/
theorem C2_counterexample :
    ({ error := some "", final_state := none, execution_log := none,
       summary := none } : ExecutionResult).error = some "" ∧
    renderResult { error := some "", final_state := none, execution_log := none,
                   summary := none } =
      { errorPanel := none, finalOutput := some "No output",
        executionLog := none, summary := none } :=
  ⟨rfl, rfl⟩

/-- Claim C2 (amended): for every stored result whose error field holds
a truthy value, that is a present and non-empty string, rendering shows
only the error panel and none of the three success panels. -/
theorem C2_error_panel_only (r : ExecutionResult) (s : String)
    (h : r.error = some s) (hs : s ≠ "") :
    renderResult r =
      { errorPanel := some s, finalOutput := none, executionLog := none,
        summary := none } := by
  simp [renderResult, h, truthyS, hs]

/-- Witness for C2 at a concrete stored error result. -/
theorem C2_error_panel_only_witness :
    renderResult { error := some "boom", final_state := none,
                   execution_log := none, summary := none } =
      { errorPanel := some "boom", finalOutput := none, executionLog := none,
        summary := none } :=
  C2_error_panel_only _ "boom" rfl (by decide)

/-- Claim C3 as stated is false on the Final Output clause: when
last_response_content is present but empty, the code renders the
fallback "No output" rather than the (empty) content, because the JSX
uses the falsy-sensitive `|| "No output"`. -/
theorem C3_counterexample :
    ({ error := none, final_state := some { last_response_content := some "" },
       execution_log := none, summary := none } : ExecutionResult).final_state =
      some { last_response_content := some "" } ∧
    (renderResult
      { error := none, final_state := some { last_response_content := some "" },
        execution_log := none, summary := none }).finalOutput = some "No output" ∧
    "No output" ≠ "" :=
  ⟨rfl, rfl, by decide⟩

/-- Claim C3 (amended): on the success branch the error panel is
absent; the Final Output panel shows last_response_content when it is
present and non-empty and the literal "No output" when it is absent or
empty; the Execution Log panel appears exactly when the log sequence is
present and non-empty, with its lines unchanged; the Summary panel
appears exactly when the summary record is present, with nodes_executed
verbatim and status label "Failed" when has_error else "Success"; and
the concrete response of the claim renders as it states. -/
theorem C3_success_rendering (r : ExecutionResult)
    (herr : truthyS r.error = false) :
    (renderResult r).errorPanel = none ∧
    (∀ c, r.final_state.bind FinalState.last_response_content = some c → c ≠ "" →
      (renderResult r).finalOutput = some c) ∧
    (truthyS (r.final_state.bind FinalState.last_response_content) = false →
      (renderResult r).finalOutput = some "No output") ∧
    (∀ lg, r.execution_log = some lg → lg ≠ [] →
      (renderResult r).executionLog = some lg) ∧
    (r.execution_log = none ∨ r.execution_log = some [] →
      (renderResult r).executionLog = none) ∧
    (∀ sm, r.summary = some sm →
      (renderResult r).summary =
        some { nodesExecuted := sm.nodes_executed,
               statusLabel := if sm.has_error then "Failed" else "Success" }) ∧
    (r.summary = none → (renderResult r).summary = none) ∧
    renderResult
      { error := none, final_state := some { last_response_content := none },
        execution_log := some [],
        summary := some { nodes_executed := 3, has_error := false } } =
      { errorPanel := none, finalOutput := some "No output", executionLog := none,
        summary := some { nodesExecuted := 3, statusLabel := "Success" } } := by
  refine ⟨?_, ?_, ?_, ?_, ?_, ?_, ?_, rfl⟩
  · simp [renderResult, herr]
  · intro c hc hne
    simp [renderResult, herr, hc, jsOrS_truthy c _ hne]
  · intro hf
    simp [renderResult, herr, jsOrS_falsy _ _ hf]
  · intro lg hlg hne
    have hpos : 0 < lg.length := List.length_pos.mpr hne
    simp [renderResult, herr, hlg, hpos]
  · intro hl
    rcases hl with hl | hl <;> simp [renderResult, herr, hl]
  · intro sm hsm
    simp [renderResult, herr, hsm]
  · intro hsm
    simp [renderResult, herr, hsm]

/-- Witness for C3 at a concrete success response exercising the
content, log and summary panels. -/
theorem C3_success_rendering_witness :
    (renderResult
      { error := none, final_state := some { last_response_content := some "hi" },
        execution_log := some ["a"],
        summary := some { nodes_executed := 2, has_error := true } }).finalOutput =
      some "hi" ∧
    (renderResult
      { error := none, final_state := some { last_response_content := some "hi" },
        execution_log := some ["a"],
        summary := some { nodes_executed := 2, has_error := true } }).executionLog =
      some ["a"] ∧
    (renderResult
      { error := none, final_state := some { last_response_content := some "hi" },
        execution_log := some ["a"],
        summary := some { nodes_executed := 2, has_error := true } }).summary =
      some { nodesExecuted := 2, statusLabel := "Failed" } := by
  have h := C3_success_rendering
    { error := none, final_state := some { last_response_content := some "hi" },
      execution_log := some ["a"],
      summary := some { nodes_executed := 2, has_error := true } } (by decide)
  exact ⟨h.2.1 "hi" rfl (by decide), h.2.2.2.1 ["a"] rfl (by decide),
    by simpa using h.2.2.2.2.2.1 { nodes_executed := 2, has_error := true } rfl⟩

/-- Claim C4: validation failures are caught before any network call.
A save with an empty trimmed name only reports the validation alert and
leaves the draft unchanged; an execute with no selected workflow or a
whitespace-only input only reports the validation alert, issues no
request and writes no state, so no ExecutionResult is produced. -/
theorem C4_validation_before_network :
    (∀ s : BuilderState, jsTrim s.name = "" →
      handleSave s = (s, SaveStep.validation "Workflow name is required")) ∧
    (∀ (es : ExecutorState) (resp : Except TransportError ExecutionResult),
      es.selectedId = "" ∨ jsTrim es.input = "" →
      handleExecute es resp =
        { states := [es], networkCalled := false,
          alertMessage := some "Please select a workflow and provide input" }) := by
  constructor
  · intro s h
    simp [handleSave, h]
  · intro es resp h
    simp [handleExecute, h]

/-- Witness for C4: a whitespace-only name and an empty selection at
concrete states. -/
theorem C4_validation_before_network_witness :
    handleSave { name := "   ", description := "d", nodes := [] } =
      ({ name := "   ", description := "d", nodes := [] },
        SaveStep.validation "Workflow name is required") ∧
    handleExecute
      { workflows := [], selectedId := "", input := "go",
        executing := false, result := none } (.ok sampleNewResult) =
      { states := [{ workflows := [], selectedId := "", input := "go",
                     executing := false, result := none }],
        networkCalled := false,
        alertMessage := some "Please select a workflow and provide input" } :=
  ⟨C4_validation_before_network.1 _ (by decide),
    C4_validation_before_network.2 _ _ (Or.inl rfl)⟩

/-- Claim C5 as stated is false: the replacement of the held result is
not atomic.  handleExecute first writes result := null before the
request, so the trace contains an intermediate state (index 2 of 5,
strictly between the invocation state and the final state) in which no
result is held, even though a result was held before the call and a new
one is held after it. -/
theorem C5_counterexample :
    (handleExecute sampleExecutorState (.ok sampleNewResult)).states.length = 5 ∧
    sampleExecutorState.result = some sampleHeldResult ∧
    ((handleExecute sampleExecutorState
        (.ok sampleNewResult)).states.getD 2 sampleExecutorState).result = none ∧
    ((handleExecute sampleExecutorState
        (.ok sampleNewResult)).states.getD 4 sampleExecutorState).result =
      some sampleNewResult := by
  refine ⟨?_, rfl, ?_, ?_⟩ <;> decide

/-- Claim C5 (amended): after an execute call that passes validation
completes, exactly one ExecutionResult (the raw response on success,
the synthetic error record on failure) is held, and no other operation
of the component (changing the selection, editing the input, reloading
the dropdown list) changes the held result; the next execute call
replaces it in two steps, not atomically: the trace first clears the
result (an intermediate state holds none) and then stores the new one,
and no state of the trace holds a result other than the previous one,
none, or the new one. -/
theorem C5_result_replacement (s : ExecutorState)
    (resp : Except TransportError ExecutionResult)
    (hid : s.selectedId ≠ "") (hin : jsTrim s.input ≠ "") :
    (handleExecute s resp).states =
      [s, { s with executing := true },
        { s with executing := true, result := none },
        { s with executing := true, result := some (execFinalResult resp) },
        { s with executing := false, result := some (execFinalResult resp) }] ∧
    (handleExecute s resp).finalState =
      some { s with executing := false, result := some (execFinalResult resp) } ∧
    (∀ st ∈ (handleExecute s resp).states,
      st.result = s.result ∨ st.result = none ∨
        st.result = some (execFinalResult resp)) ∧
    (∀ v, (setSelectedId s v).result = s.result) ∧
    (∀ v, (setInput s v).result = s.result) ∧
    (∀ lr, (loadWorkflowsExec s lr).result = s.result) := by
  have hcond : ¬(s.selectedId = "" ∨ jsTrim s.input = "") := by
    intro h; rcases h with h | h
    · exact hid h
    · exact hin h
  refine ⟨?_, ?_, ?_, ?_, ?_, ?_⟩
  · simp [handleExecute, hcond]
  · simp [handleExecute, hcond, ExecOutcome.finalState]
  · intro st hst
    simp [handleExecute, hcond, List.mem_cons] at hst
    rcases hst with h | h | h | h | h <;> subst h <;> simp
  · intro v; rfl
  · intro v; rfl
  · intro lr
    cases lr <;> rfl

/-- Witness for C5 at a concrete state and successful response. -/
theorem C5_result_replacement_witness :
    (handleExecute sampleExecutorState (.error
      { responseError := none, message := some "down" })).finalState =
      some { sampleExecutorState with
              executing := false,
              result := some { error := some "down", final_state := none,
                               execution_log := none, summary := none } } := by
  have h := C5_result_replacement sampleExecutorState
    (.error { responseError := none, message := some "down" })
    (by decide) (by decide)
  simpa [execFinalResult, failureResult, jsOrS] using h.2.1

/-- n addNode calls from the empty draft build the default nodes in
positional order. -/
theorem addNodeIter_eq_range_map (n : Nat) :
    addNodeIter n = (List.range n).map newNode := by
  induction n with
  | zero => rfl
  | succ n ih =>
    simp [addNodeIter, addNode, ih, List.range_succ]

/-- Claim C6: n addNode calls from an empty draft yield n nodes; the
node at 0-based position i is named after the 1-based position i + 1,
with empty prompt, default_target END and no conditional targets; and
each addNode call is a pure append of the one new node, leaving the
existing nodes untouched. -/
theorem C6_addNode_sequence (n : Nat) :
    (addNodeIter n).length = n ∧
    (∀ i, i < n → (addNodeIter n)[i]? =
      some { name := some ("Node " ++ toString (i + 1)), prompt := some "",
             routing_rules := some { default_target := "END",
                                     conditional_targets := [] } }) ∧
    (∀ ns : List NodeObject, addNode ns = ns ++ [newNode ns.length]) := by
  refine ⟨?_, ?_, fun ns => rfl⟩
  · simp [addNodeIter_eq_range_map]
  · intro i hi
    simp [addNodeIter_eq_range_map, List.getElem?_range hi, newNode]

/-- Witness for C6 with three addNode calls. -/
theorem C6_addNode_sequence_witness :
    (addNodeIter 3).length = 3 ∧
    (addNodeIter 3)[1]? =
      some { name := some "Node 2", prompt := some "",
             routing_rules := some { default_target := "END",
                                     conditional_targets := [] } } ∧
    addNode [] = [newNode 0] := by
  have h := C6_addNode_sequence 3
  exact ⟨h.1, (h.2.1 1 (by decide)).trans (by decide), (h.2.2 []).trans (by decide)⟩

/-- Indexed filter over an enumeration whose indices all exceed the
removed index keeps every element. -/
theorem filter_enumFrom_of_lt {α : Type} (l : List α) : ∀ k idx : Nat, idx < k →
    ((List.enumFrom k l).filter (fun p => p.1 != idx)).map Prod.snd = l := by
  induction l with
  | nil => intro k idx h; rfl
  | cons x xs ih =>
    intro k idx h
    have hne : (k != idx) = true := by
      simp only [bne_iff_ne, ne_eq]
      omega
    simp [List.filter_cons, hne, ih (k + 1) idx (by omega)]

/-- Indexed filter over an enumeration starting at or below the removed
index drops exactly the element at that index. -/
theorem filter_enumFrom_of_le {α : Type} (l : List α) : ∀ k idx : Nat, k ≤ idx →
    ((List.enumFrom k l).filter (fun p => p.1 != idx)).map Prod.snd
      = l.take (idx - k) ++ l.drop (idx - k + 1) := by
  induction l with
  | nil => intro k idx h; simp
  | cons x xs ih =>
    intro k idx h
    by_cases hk : k = idx
    · subst hk
      have hb : (k != k) = false := by simp
      simp [List.filter_cons, hb, filter_enumFrom_of_lt xs (k + 1) k (by omega),
        Nat.sub_self]
    · have hne : (k != idx) = true := by
        simp only [bne_iff_ne, ne_eq]
        exact hk
      have h1 : idx - k = (idx - (k + 1)) + 1 := by omega
      simp [List.filter_cons, hne, ih (k + 1) idx (by omega), h1]

/-- removeNode drops exactly the element at the removed index. -/
theorem removeNode_eq (ns : List NodeObject) (idx : Nat) :
    removeNode ns idx = ns.take idx ++ ns.drop (idx + 1) := by
  have h := filter_enumFrom_of_le ns 0 idx (Nat.zero_le idx)
  simpa using h

/-- Claim C7: removing a valid index from a node sequence of length
above one shortens it by one, keeps every node before the index at its
position with its fields intact, and shifts every node after the index
left by exactly one position with its fields intact. -/
theorem C7_removeNode (ns : List NodeObject) (idx : Nat)
    (hn : 1 < ns.length) (hidx : idx < ns.length) :
    (removeNode ns idx).length = ns.length - 1 ∧
    (∀ j, j < idx → (removeNode ns idx)[j]? = ns[j]?) ∧
    (∀ j, idx < j → j < ns.length → (removeNode ns idx)[j - 1]? = ns[j]?) := by
  have hre := removeNode_eq ns idx
  have htake : (ns.take idx).length = idx := by
    simp only [List.length_take]
    omega
  refine ⟨?_, ?_, ?_⟩
  · rw [hre]
    simp only [List.length_append, List.length_take, List.length_drop]
    omega
  · intro j hj
    rw [hre, List.getElem?_append_left (by rw [htake]; omega)]
    exact List.getElem?_take_of_lt hj
  · intro j hj1 hj2
    rw [hre, List.getElem?_append_right (by rw [htake]; omega), htake,
      List.getElem?_drop]
    congr 1
    omega

/-- Witness for C7: removing the middle node of three. -/
theorem C7_removeNode_witness :
    (removeNode [newNode 0, newNode 1, newNode 2] 1).length = 2 ∧
    (removeNode [newNode 0, newNode 1, newNode 2] 1)[0]? = some (newNode 0) ∧
    (removeNode [newNode 0, newNode 1, newNode 2] 1)[1]? = some (newNode 2) := by
  have h := C7_removeNode [newNode 0, newNode 1, newNode 2] 1 (by decide) (by decide)
  exact ⟨h.1, h.2.1 0 (by decide), h.2.2 2 (by decide) (by decide)⟩

/-- Claim C8: updating field f of the node at a valid index changes
only that field of that node: the length is unchanged, every other
position is unchanged, the targeted position holds the targeted node
with field f set to v, and every other field of the targeted node is
unchanged.  For a valid index the expression ns.getD idx
emptyNodeObject is the node at that position. -/
theorem C8_updateNode (ns : List NodeObject) (idx : Nat) (f : NodeField)
    (v : f.Val) (hidx : idx < ns.length) :
    (updateNode ns idx f v).length = ns.length ∧
    (∀ j, j ≠ idx → (updateNode ns idx f v)[j]? = ns[j]?) ∧
    (updateNode ns idx f v)[idx]? =
      some (setField (ns.getD idx emptyNodeObject) f v) ∧
    getField (setField (ns.getD idx emptyNodeObject) f v) f = some v ∧
    (∀ g, g ≠ f → getField (setField (ns.getD idx emptyNodeObject) f v) g
      = getField (ns.getD idx emptyNodeObject) g) := by
  have hup : updateNode ns idx f v
      = ns.set idx (setField (ns.getD idx emptyNodeObject) f v) := by
    simp [updateNode, setAt, hidx]
  refine ⟨?_, ?_, ?_, ?_, ?_⟩
  · rw [hup]
    exact List.length_set ns idx _
  · intro j hne
    rw [hup]
    exact List.getElem?_set_ne (fun hh => hne hh.symm)
  · rw [hup]
    exact List.getElem?_set_self hidx
  · cases f <;> rfl
  · intro g hg
    cases f <;> cases g <;> first
      | rfl
      | exact absurd rfl hg

/-- Witness for C8: setting the prompt of the second of two nodes. -/
theorem C8_updateNode_witness :
    (updateNode [newNode 0, newNode 1] 1 NodeField.prompt "hi").length = 2 ∧
    (updateNode [newNode 0, newNode 1] 1 NodeField.prompt "hi")[0]? =
      some (newNode 0) ∧
    getField (setField ([newNode 0, newNode 1].getD 1 emptyNodeObject)
      NodeField.prompt "hi") NodeField.prompt = some "hi" ∧
    getField (setField ([newNode 0, newNode 1].getD 1 emptyNodeObject)
      NodeField.prompt "hi") NodeField.name = some "Node 2" := by
  have h := C8_updateNode [newNode 0, newNode 1] 1 NodeField.prompt "hi" (by decide)
  exact ⟨h.1, h.2.1 0 (by decide), h.2.2.2.1,
    (h.2.2.2.2 NodeField.name (by decide)).trans (by decide)⟩

/-- Claim C9: the delete flow of the list view issues no network call
without confirmation; a failed delete leaves the displayed list exactly
as it was and shows an alert with the error message or its fallback,
without reloading; and the displayed list changes only when the delete
succeeded and the follow-up reload of the full list succeeded, in which
case it becomes the reloaded list. -/
theorem C9_delete_confirmation (s : ListState) (confirmed : Bool)
    (dresp : Except TransportError Unit)
    (rresp : Except TransportError (List WorkflowMetadata)) :
    (confirmed = false →
      handleDelete s confirmed dresp rresp =
        { state := s, deleteCalled := false, reloadCalled := false,
          alertMessage := none }) ∧
    ((handleDelete s confirmed dresp rresp).deleteCalled = true →
      confirmed = true) ∧
    (∀ e, confirmed = true → dresp = .error e →
      (handleDelete s confirmed dresp rresp).state = s ∧
      (handleDelete s confirmed dresp rresp).alertMessage =
        some (jsOrS e.message "Failed to delete workflow") ∧
      (handleDelete s confirmed dresp rresp).reloadCalled = false) ∧
    ((handleDelete s confirmed dresp rresp).state.workflows ≠ s.workflows →
      confirmed = true ∧ (∃ u, dresp = .ok u) ∧
      ∃ data, rresp = .ok data ∧
        (handleDelete s confirmed dresp rresp).state.workflows = data) := by
  refine ⟨?_, ?_, ?_, ?_⟩
  · intro h
    subst h
    rfl
  · intro h
    cases confirmed with
    | false => exact h
    | true => rfl
  · intro e hc hd
    subst hc
    subst hd
    exact ⟨rfl, rfl, rfl⟩
  · intro hne
    cases confirmed with
    | false => exact absurd rfl hne
    | true =>
      cases dresp with
      | error e => exact absurd rfl hne
      | ok u =>
        cases rresp with
        | error er => exact absurd rfl hne
        | ok data => exact ⟨rfl, ⟨u, rfl⟩, data, rfl, rfl⟩

/-- Witness for C9: a rejected delete of a one-row list with an error
carrying no message leaves the row in place and alerts the fallback
text. -/
theorem C9_delete_confirmation_witness :
    (handleDelete { workflows := [sampleMeta], loading := false, error := none }
      true (.error { responseError := none, message := none })
      (.ok [])).state =
      { workflows := [sampleMeta], loading := false, error := none } ∧
    (handleDelete { workflows := [sampleMeta], loading := false, error := none }
      true (.error { responseError := none, message := none })
      (.ok [])).alertMessage = some "Failed to delete workflow" ∧
    (handleDelete { workflows := [sampleMeta], loading := false, error := none }
      true (.error { responseError := none, message := none })
      (.ok [])).reloadCalled = false := by
  have h := (C9_delete_confirmation
    { workflows := [sampleMeta], loading := false, error := none } true
    (.error { responseError := none, message := none }) (.ok [])).2.2.1
    { responseError := none, message := none } rfl rfl
  exact ⟨h.1, h.2.1, h.2.2⟩

/-- Claim C10: updateNode called with index equal to the node-sequence
length appends the one-field object built by spreading undefined, so
the sequence grows by one; the appended object carries field f set to v
and no other field. -/
theorem C10_updateNode_at_length (ns : List NodeObject) (f : NodeField)
    (v : f.Val) :
    updateNode ns ns.length f v = ns ++ [setField emptyNodeObject f v] ∧
    (updateNode ns ns.length f v).length = ns.length + 1 ∧
    getField (setField emptyNodeObject f v) f = some v ∧
    (∀ g, g ≠ f → getField (setField emptyNodeObject f v) g = none) := by
  have hget : ns.getD ns.length emptyNodeObject = emptyNodeObject := by
    simp [List.getElem?_eq_none (Nat.le_refl ns.length)]
  have happ : updateNode ns ns.length f v
      = ns ++ [setField emptyNodeObject f v] := by
    simp [updateNode, setAt, hget]
  refine ⟨happ, ?_, ?_, ?_⟩
  · rw [happ]
    simp
  · cases f <;> rfl
  · intro g hg
    cases f <;> cases g <;> first
      | rfl
      | exact absurd rfl hg

/-- Witness for C10: updating index 0 of the empty sequence appends a
name-only node object. -/
theorem C10_updateNode_at_length_witness :
    updateNode [] 0 NodeField.name "X" =
      [{ name := some "X", prompt := none, routing_rules := none }] ∧
    getField (setField emptyNodeObject NodeField.name "X") NodeField.prompt
      = none := by
  have h := C10_updateNode_at_length [] NodeField.name "X"
  exact ⟨h.1.trans (by decide), h.2.2.2 NodeField.prompt (by decide)⟩

end FloWork
